import Mathlib

set_option maxRecDepth 100000

/-!
Shallow embedding of `src/merkletree/LogRecord.cc` (certificate-transparency).

Conventions of the embedding:
* A C++ `std::string` used as a byte buffer is a `List Nat` whose elements are
  byte values `0..255`.
* `size_t` is 64 bits wide; `size_t` arithmetic is `Nat` arithmetic reduced
  `% 2^64` wherever the C++ computation can wrap.
* On the reference platform (x86-64 Linux, the platform the repository's build
  and deployment files target) `char` is signed, so reading a byte `b ≥ 0x80`
  out of a `std::string` and converting it to `size_t` sign-extends: the value
  obtained is `2^64 - 256 + b`.  `charVal` models exactly this conversion; it
  is applied at every place the C++ code reads a `char` into an integer
  (`DeserializeUint`'s accumulation, and `data[0]`/`data[1]` in
  `DigitallySigned::ReadFromString`).
* `assert` is active only in debug builds; serializers are embedded under the
  asserted preconditions (values fit their widths, hashes are 32 bytes), which
  every record serialized in this development satisfies.
* Decoders in the C++ code mutate fields of `*this` as they go.  Each decoder
  is embedded as a function from the prior record state and the input buffer to
  the pair of the C++ return value and the resulting record state, so that
  partial writes on failing paths are visible.
-/

namespace LogRecord

/-- Byte buffers: lists of byte values `0..255`. -/
abbrev Bytes := List Nat

/-- Value of `(size_t)(char)b` for a byte `b` on a signed-`char` platform:
bytes below `0x80` keep their value, bytes `0x80..0xff` sign-extend. -/
def charVal (b : Nat) : Nat :=
  if b < 128 then b else 2 ^ 64 - 256 + b

/-- `SerializeUint(in, bytes)` (LogRecord.cc:9-17): emit `in` MSB-first in
`bytes` bytes, under the asserted precondition `in < 2^(8*bytes)`
(and `bytes ≤ 8`). -/
def serializeUint (v n : Nat) : Bytes :=
  (List.range n).map (fun j => v / 256 ^ (n - 1 - j) % 256)

/-- `DeserializeUint(in)` (LogRecord.cc:19-26): fold `res = (res << 8) + in[i]`
over the buffer in `size_t` arithmetic; `in[i]` is a signed `char`, hence
`charVal`. -/
def deserializeUint (l : Bytes) : Nat :=
  l.foldl (fun res b => (res * 256 + charVal b) % 2 ^ 64) 0

/-- `DigitallySigned` (LogRecord.h): algorithm-tagged signature envelope.
`hash_algo`/`sig_algo` hold the numeric enum values. -/
structure DigitallySigned where
  hash_algo : Nat
  sig_algo : Nat
  sig_string : Bytes
deriving DecidableEq

/-- `DigitallySigned::Serialize` (LogRecord.cc:40-46). -/
def DigitallySigned.serialize (d : DigitallySigned) : Bytes :=
  serializeUint d.hash_algo 1 ++ serializeUint d.sig_algo 1 ++
    serializeUint d.sig_string.length 2 ++ d.sig_string

/-- `DigitallySigned::ReadFromString` (LogRecord.cc:48-63).  Returns the pair
of the C++ return value (bytes consumed, `0` on failure) and the record state
after the call.  `IsValidHashAlgorithmEnum` / `IsValidSignatureAlgorithmEnum`
(LogRecord.cc:28-38) are inlined as the bounds `h ≤ 6`, `s ≤ 3`.  The C++
return `4 + sig_size` is a `size_t` sum, hence the `% 2^64`; `substr(4,
sig_size)` clamps to the end of the buffer, hence `take`. -/
def DigitallySigned.readFromString (d : DigitallySigned) (data : Bytes) :
    Nat × DigitallySigned :=
  if data.length < 4 then (0, d)
  else
    let h := charVal (data.getD 0 0)
    let s := charVal (data.getD 1 0)
    if 6 < h ∨ 3 < s then (0, d)
    else
      let sig_size := deserializeUint ((data.drop 2).take 2)
      if data.length < (4 + sig_size) % 2 ^ 64 then (0, d)
      else ((4 + sig_size) % 2 ^ 64,
        { hash_algo := h, sig_algo := s, sig_string := (data.drop 4).take sig_size })

/-- `DigitallySigned::Deserialize` (LogRecord.cc:65-69): strict parse; the
short-circuit `data.empty() || ReadFromString(data) != data.size()` calls
`ReadFromString` (and hence writes fields) only on non-empty buffers. -/
def DigitallySigned.deserialize (d : DigitallySigned) (data : Bytes) :
    Bool × DigitallySigned :=
  if data.length = 0 then (false, d)
  else
    let r := d.readFromString data
    (r.1 = data.length, r.2)

/-- `LogSegmentCheckpoint` (LogRecord.h): signed commitment to the Merkle root
of one log segment. -/
structure LogSegmentCheckpoint where
  sequence_number : Nat
  segment_size : Nat
  signature : DigitallySigned
  root : Bytes
deriving DecidableEq

/-- `LogSegmentCheckpoint::Serialize` (LogRecord.cc:71-78), under the asserted
precondition `root.size() == 32`. -/
def LogSegmentCheckpoint.serialize (c : LogSegmentCheckpoint) : Bytes :=
  serializeUint c.sequence_number 4 ++ serializeUint c.segment_size 4 ++
    c.signature.serialize ++ c.root

/-- `LogSegmentCheckpoint::Deserialize` (LogRecord.cc:89-103).
`sequence_number` and `segment_size` are written before the embedded
signature is prefix-parsed; the signature member is overwritten by whatever
`ReadFromString` leaves in it. -/
def LogSegmentCheckpoint.deserialize (c : LogSegmentCheckpoint) (data : Bytes) :
    Bool × LogSegmentCheckpoint :=
  if data.length < 8 then (false, c)
  else
    let c1 := { c with sequence_number := deserializeUint (data.take 4),
                       segment_size := deserializeUint ((data.drop 4).take 4) }
    let r := c1.signature.readFromString (data.drop 8)
    let c2 := { c1 with signature := r.2 }
    if r.1 = 0 then (false, c2)
    else if data.length ≠ 8 + r.1 + 32 then (false, c2)
    else (true, { c2 with root := data.drop (8 + r.1) })

/-- `LogHeadCheckpoint` (LogRecord.h): signed commitment to the Merkle root of
the tree of segment checkpoints. -/
structure LogHeadCheckpoint where
  sequence_number : Nat
  signature : DigitallySigned
  root : Bytes
deriving DecidableEq

/-- `LogHeadCheckpoint::Serialize` (LogRecord.cc:105-111), under the asserted
precondition `root.size() == 32`. -/
def LogHeadCheckpoint.serialize (c : LogHeadCheckpoint) : Bytes :=
  serializeUint c.sequence_number 4 ++ c.signature.serialize ++ c.root

/-- `LogHeadCheckpoint::Deserialize` (LogRecord.cc:121-134). -/
def LogHeadCheckpoint.deserialize (c : LogHeadCheckpoint) (data : Bytes) :
    Bool × LogHeadCheckpoint :=
  if data.length < 4 then (false, c)
  else
    let c1 := { c with sequence_number := deserializeUint (data.take 4) }
    let r := c1.signature.readFromString (data.drop 4)
    let c2 := { c1 with signature := r.2 }
    if r.1 = 0 then (false, c2)
    else if data.length ≠ 4 + r.1 + 32 then (false, c2)
    else (true, { c2 with root := data.drop (4 + r.1) })

/-- `SegmentData::TreeType` (LogRecord.h): discriminator between the
per-segment tree and the tree of segment checkpoints. -/
inductive TreeType where
  | LOG_SEGMENT_TREE
  | SEGMENT_INFO_TREE
deriving DecidableEq

/-- `SegmentData` (LogRecord.h): a segment checkpoint and a head checkpoint
tied together under one timestamp. -/
structure SegmentData where
  log_segment : LogSegmentCheckpoint
  log_head : LogHeadCheckpoint
  timestamp : Nat
deriving DecidableEq

/-- `SegmentData::SerializeSegmentInfo` (LogRecord.cc:136-144), under the
asserted precondition
`log_segment.sequence_number == log_head.sequence_number`. -/
def SegmentData.serializeSegmentInfo (sd : SegmentData) : Bytes :=
  serializeUint sd.log_segment.sequence_number 4 ++
    serializeUint sd.timestamp 4 ++
    serializeUint sd.log_segment.segment_size 4 ++
    sd.log_segment.signature.serialize ++ sd.log_head.signature.serialize

/-- `SegmentData::DeserializeSegmentInfo` (LogRecord.cc:146-160): the first
embedded signature is prefix-parsed, the second strictly. -/
def SegmentData.deserializeSegmentInfo (sd : SegmentData) (data : Bytes) :
    Bool × SegmentData :=
  if data.length < 12 then (false, sd)
  else
    let seq := deserializeUint (data.take 4)
    let sd1 := { sd with
      log_segment := { sd.log_segment with
        sequence_number := seq,
        segment_size := deserializeUint ((data.drop 8).take 4) },
      log_head := { sd.log_head with sequence_number := seq },
      timestamp := deserializeUint ((data.drop 4).take 4) }
    let r1 := sd1.log_segment.signature.readFromString (data.drop 12)
    let sd2 := { sd1 with
      log_segment := { sd1.log_segment with signature := r1.2 } }
    if r1.1 = 0 then (false, sd2)
    else
      let r2 := sd2.log_head.signature.deserialize (data.drop (12 + r1.1))
      (r2.1, { sd2 with log_head := { sd2.log_head with signature := r2.2 } })

/-- Fuel-indexed body of the `while` loop of `AuditProof::Deserialize`
(LogRecord.cc:202-205): split a buffer into consecutive 32-byte pieces.  Each
iteration consumes at least one byte, so any fuel at least the buffer length
runs the loop to completion. -/
def chunks32Aux : Nat → Bytes → List Bytes
  | 0, _ => []
  | _, [] => []
  | fuel + 1, b :: rest => ((b :: rest).take 32) :: chunks32Aux fuel ((b :: rest).drop 32)

/-- The `while` loop of `AuditProof::Deserialize` (LogRecord.cc:202-205):
split a buffer into consecutive 32-byte pieces. -/
def chunks32 (l : Bytes) : List Bytes :=
  chunks32Aux l.length l

/-- `AuditProof` (LogRecord.h): audit path for `leaf_index` in a tree of
`tree_size` leaves, relative to `tree_type`. -/
structure AuditProof where
  tree_type : TreeType
  sequence_number : Nat
  tree_size : Nat
  leaf_index : Nat
  signature : DigitallySigned
  audit_path : List Bytes
deriving DecidableEq

/-- `AuditProof::Serialize` (LogRecord.cc:162-174), under the asserted
precondition that every audit-path entry is 32 bytes; `tree_size` is emitted
only for `LOG_SEGMENT_TREE`. -/
def AuditProof.serialize (p : AuditProof) : Bytes :=
  serializeUint p.sequence_number 4 ++
    (if p.tree_type = TreeType.LOG_SEGMENT_TREE
      then serializeUint p.tree_size 4 else []) ++
    serializeUint p.leaf_index 4 ++ p.signature.serialize ++
    p.audit_path.foldl (fun acc h => acc ++ h) []

/-- Tail of `AuditProof::Deserialize` (LogRecord.cc:191-206), starting from
the shared cursor position `pos` reached after `sequence_number` (and, for
`LOG_SEGMENT_TREE`, `tree_size`) have been read: reads `leaf_index`,
prefix-parses the signature, checks 32-byte alignment of the residue and
chunks it into `audit_path`. -/
def AuditProof.deserializeFrom (p : AuditProof) (pos : Nat) (proof : Bytes) :
    Bool × AuditProof :=
  if proof.length < pos + 4 then (false, p)
  else
    let p3 := { p with leaf_index := deserializeUint ((proof.drop pos).take 4) }
    let r := p3.signature.readFromString (proof.drop (pos + 4))
    let p4 := { p3 with signature := r.2 }
    if r.1 = 0 then (false, p4)
    else if (proof.length - (pos + 4 + r.1)) % 32 ≠ 0 then (false, p4)
    else (true, { p4 with audit_path := chunks32 (proof.drop (pos + 4 + r.1)) })

/-- `AuditProof::Deserialize` (LogRecord.cc:176-207).  `tree_type` is written
first; for `SEGMENT_INFO_TREE` the `tree_size` field is synthesized as the
`size_t` sum `sequence_number + 1` instead of being read from the wire. -/
def AuditProof.deserialize (p : AuditProof) (type : TreeType) (proof : Bytes) :
    Bool × AuditProof :=
  let p0 := { p with tree_type := type }
  if proof.length < 4 then (false, p0)
  else
    let p1 := { p0 with sequence_number := deserializeUint (proof.take 4) }
    if type = TreeType.LOG_SEGMENT_TREE then
      if proof.length < 8 then (false, p1)
      else
        AuditProof.deserializeFrom
          { p1 with tree_size := deserializeUint ((proof.drop 4).take 4) } 8 proof
    else
      AuditProof.deserializeFrom
        { p1 with tree_size := (p1.sequence_number + 1) % 2 ^ 64 } 4 proof

/-- An all-default `DigitallySigned` used as the receiver record in concrete
decoding runs. -/
def dsEmpty : DigitallySigned := DigitallySigned.mk 0 0 []

/-- A valid `DigitallySigned` whose signature is 128 bytes, so the wire length
field is `00 80` and its low byte sign-extends on decode. -/
def ds128 : DigitallySigned := DigitallySigned.mk 0 0 (List.replicate 128 65)

/-- A valid `DigitallySigned` whose signature is 384 bytes, so the wire length
field is `01 80`, which `DeserializeUint` misreads as `128`. -/
def ds384 : DigitallySigned := DigitallySigned.mk 0 0 (List.replicate 384 65)

/-- A buffer whose `DigitallySigned` header declares a 384-byte signature
(`01 80`) but carries only 128 further bytes. -/
def c4buf : Bytes := [0, 0, 1, 128] ++ List.replicate 128 0

/-- Signature content for `segRecord`'s first embedded signature: 384 bytes
whose slice at offsets 128..131 is `00 00 01 01`, so that after the first
signature under-consumes, the strict parse of the remainder can succeed. -/
def sig1content : Bytes := List.replicate 128 0 ++ [0, 0, 1, 1] ++ List.replicate 252 0

/-- A valid `SegmentData` record (equal sequence numbers, in-range enum
values, signature below 2^16 bytes) whose first embedded signature is 384
bytes long. -/
def segRecord : SegmentData :=
  SegmentData.mk
    (LogSegmentCheckpoint.mk 1 0 (DigitallySigned.mk 0 0 sig1content)
      (List.replicate 32 0))
    (LogHeadCheckpoint.mk 1 (DigitallySigned.mk 0 0 []) (List.replicate 32 0))
    0

/-- `AuditProof` on the segment-info tree whose `tree_size` is exactly
`sequence_number + 1`, with `sequence_number = 128` so that the top wire byte
of the counter is `0x80`. -/
def apInfo128 : AuditProof :=
  AuditProof.mk TreeType.SEGMENT_INFO_TREE 128 129 0 (DigitallySigned.mk 0 0 []) []

/-- Receiver record for concrete `AuditProof` decoding runs. -/
def apEmpty : AuditProof :=
  AuditProof.mk TreeType.LOG_SEGMENT_TREE 0 0 0 (DigitallySigned.mk 0 0 []) []

/-- Bytes of the spec's concrete scenario 4: an audit proof on the
segment-info tree with `sequence_number = 5`, `leaf_index = 1`, an empty
signature tagged `hash = 1, sig = 1`, and a two-node path. -/
def apScenario4 : Bytes :=
  [0, 0, 0, 5, 0, 0, 0, 1, 1, 1, 0, 0] ++
    List.replicate 32 170 ++ List.replicate 32 187

/-- Bytes of the spec's concrete scenario 3: a `LogHeadCheckpoint` with
`sequence_number = 7`, empty signature tagged `1, 1`, all-zero root — reused
here with a `segment_size` word in front as a `LogSegmentCheckpoint` input. -/
def lscInput : Bytes := [0, 0, 0, 7, 0, 0, 0, 9, 1, 1, 0, 0] ++ List.replicate 32 0

/-- Receiver record for concrete `LogSegmentCheckpoint` decoding runs. -/
def lscOld : LogSegmentCheckpoint :=
  LogSegmentCheckpoint.mk 5 6 (DigitallySigned.mk 2 2 [9]) (List.replicate 32 7)

example : (DigitallySigned.mk 4 3 [65, 66, 67]).serialize =
    [4, 3, 0, 3, 65, 66, 67] := by decide

example : (dsEmpty.readFromString [4, 3, 0, 3, 65, 66, 67]) =
    (7, DigitallySigned.mk 4 3 [65, 66, 67]) := by decide

example : deserializeUint [1, 128] = 128 := by decide

example : (apEmpty.deserialize TreeType.SEGMENT_INFO_TREE apScenario4) =
    (true, AuditProof.mk TreeType.SEGMENT_INFO_TREE 5 6 1
      (DigitallySigned.mk 1 1 [])
      [List.replicate 32 170, List.replicate 32 187]) := by decide

/-- Helper: `AuditProof.deserializeFrom` never changes `tree_type`,
`sequence_number` or `tree_size`, and on success it has set `leaf_index` to
the 4-byte field at its starting cursor. -/
lemma deserializeFrom_state (p : AuditProof) (pos : Nat) (proof : Bytes) :
    (p.deserializeFrom pos proof).2.tree_type = p.tree_type ∧
    (p.deserializeFrom pos proof).2.sequence_number = p.sequence_number ∧
    (p.deserializeFrom pos proof).2.tree_size = p.tree_size ∧
    ((p.deserializeFrom pos proof).1 = true →
      (p.deserializeFrom pos proof).2.leaf_index =
        deserializeUint ((proof.drop pos).take 4)) := by
  unfold AuditProof.deserializeFrom
  dsimp only []
  split_ifs <;> simp_all

/-- Helper: on a buffer of at least 4 bytes, `AuditProof::Deserialize` for the
segment-info tree reduces to the shared tail at cursor 4, with `tree_size`
synthesized from the decoded `sequence_number`. -/
lemma deserialize_eq_from_segment_info (p : AuditProof) (proof : Bytes)
    (hlen : ¬ proof.length < 4) :
    p.deserialize TreeType.SEGMENT_INFO_TREE proof =
      AuditProof.deserializeFrom
        { p with tree_type := TreeType.SEGMENT_INFO_TREE,
                 sequence_number := deserializeUint (proof.take 4),
                 tree_size := (deserializeUint (proof.take 4) + 1) % 2 ^ 64 }
        4 proof := by
  unfold AuditProof.deserialize
  dsimp only []
  rw [if_neg hlen, if_neg (by decide)]

/-- Helper: on a buffer of at least 8 bytes, `AuditProof::Deserialize` for the
log-segment tree reduces to the shared tail at cursor 8, with `tree_size`
decoded from bytes 4..8 of the wire. -/
lemma deserialize_eq_from_log_segment (p : AuditProof) (proof : Bytes)
    (hlen4 : ¬ proof.length < 4) (hlen8 : ¬ proof.length < 8) :
    p.deserialize TreeType.LOG_SEGMENT_TREE proof =
      AuditProof.deserializeFrom
        { p with tree_type := TreeType.LOG_SEGMENT_TREE,
                 sequence_number := deserializeUint (proof.take 4),
                 tree_size := deserializeUint ((proof.drop 4).take 4) }
        8 proof := by
  unfold AuditProof.deserialize
  dsimp only []
  rw [if_neg hlen4, if_pos rfl, if_neg hlen8]

/-- C1.  The round-trip law fails on the code: for the valid `DigitallySigned`
record `ds128` (in-range algorithms, 128-byte signature), decoding the bytes
produced by `Serialize` does not yield the record back — the strict
`Deserialize` fails outright, and even the prefix parse consumes nothing,
because the low byte `0x80` of the length field is sign-extended by
`DeserializeUint`. -/
theorem digitallySigned_roundtrip_violation :
    (dsEmpty.deserialize ds128.serialize).1 = false ∧
      dsEmpty.readFromString ds128.serialize = (0, dsEmpty) := by decide

/-- C2.  Prefix-parse discipline fails on the code: for the valid record
`ds384` (384-byte signature, wire length field `01 80`) and the empty suffix,
`ReadFromString` on `Serialize(ds384)` returns 132 rather than the encoding's
length 388, and populates the receiver with a 128-byte truncation of the
signature. -/
theorem digitallySigned_prefix_parse_violation :
    (dsEmpty.readFromString ds384.serialize).1 = 132 ∧
      ds384.serialize.length = 388 ∧
      (dsEmpty.readFromString ds384.serialize).2 ≠ ds384 := by decide

/-- C3.  The primitive codec round trip fails on the code at `v = 128`,
`n = 1`: `SerializeUint` emits the byte `0x80`, and `DeserializeUint`
sign-extends it, returning `2^64 - 128` instead of `128`. -/
theorem deserializeUint_sign_extension_violation :
    serializeUint 128 1 = [128] ∧
      deserializeUint (serializeUint 128 1) = 2 ^ 64 - 128 := by decide

/-- C4.  The claimed failure characterization of `ReadFromString` is violated:
`c4buf` is 132 bytes long and its 2-byte length field is the encoding of 384
(so `len(buf) = 132 < 4 + 384` and the claim demands failure), yet the code
consumes 132 bytes and reports success, because `DeserializeUint` turns the
bytes `01 80` into 128. -/
theorem readFromString_failure_condition_violation :
    (dsEmpty.readFromString c4buf).1 = 132 ∧
      c4buf.length = 132 ∧
      (c4buf.drop 2).take 2 = serializeUint 384 2 ∧
      c4buf.length < 4 + 384 := by decide

/-- C8.  The strict-tail half of the claim fails on the code: `segRecord` is a
valid `SegmentData` (equal sequence numbers, in-range enums, signatures below
2^16 bytes), yet appending the single stray byte `0x00` to its
`SerializeSegmentInfo` encoding makes `DeserializeSegmentInfo` return `true`:
the first embedded signature's length field `01 80` is misread as 128, the
prefix parse under-consumes, and the strict parse of the remainder happens to
succeed. -/
theorem segmentData_strict_tail_violation :
    (segRecord.deserializeSegmentInfo (segRecord.serializeSegmentInfo ++ [0])).1
      = true := by decide

/-- C10.  The claimed equivalence fails on the code: `apInfo128` is an
`AuditProof` on the segment-info tree with `tree_size = sequence_number + 1 =
129`, yet `Deserialize(SEGMENT_INFO_TREE, Serialize(apInfo128))` does not
recover it — the decoder reports success but sign-extends the top byte `0x80`
of the sequence number, yielding `2^64 - 128`. -/
theorem auditProof_segmentInfo_roundtrip_violation :
    apInfo128.tree_size = apInfo128.sequence_number + 1 ∧
      (apInfo128.deserialize TreeType.SEGMENT_INFO_TREE apInfo128.serialize).1
        = true ∧
      (apInfo128.deserialize TreeType.SEGMENT_INFO_TREE apInfo128.serialize).2
        ≠ apInfo128 := by decide

/-- C9, counterexample.  Rejection is not atomic: `LogSegmentCheckpoint::
Deserialize` on an 8-byte buffer fails (returns `false`) but has already
overwritten `sequence_number` (5 becomes 1) and `segment_size` (6 becomes 2)
of the receiver. -/
theorem deserialize_overwrites_on_failure :
    lscOld.deserialize [0, 0, 0, 1, 0, 0, 0, 2] =
      (false, LogSegmentCheckpoint.mk 1 2 (DigitallySigned.mk 2 2 [9])
        (List.replicate 32 7)) := by decide

/-- C9, amended.  Rejection is atomic for `DigitallySigned::ReadFromString`:
each of its failure exits — buffer shorter than 4 bytes, out-of-range
algorithm byte, or buffer shorter than the (`size_t`-computed) declared
signature extent `4 + sig_size` — returns 0 without touching the receiver.
The strict and record-level decoders are not atomic: they write fields before
later failure checks, so a failed decode can leave a half-updated record. -/
theorem readFromString_failure_exits_atomic (d : DigitallySigned) (data : Bytes)
    (h : data.length < 4 ∨ 6 < charVal (data.getD 0 0) ∨
      3 < charVal (data.getD 1 0) ∨
      data.length < (4 + deserializeUint ((data.drop 2).take 2)) % 2 ^ 64) :
    d.readFromString data = (0, d) := by
  unfold DigitallySigned.readFromString
  dsimp only []
  split_ifs with h1 h2 h3
  · rfl
  · rfl
  · rfl
  · exfalso
    rcases h with h | h | h | h
    · exact h1 h
    · exact h2 (Or.inl h)
    · exact h2 (Or.inr h)
    · exact h3 h

/-- Witness for C9's amended theorem: a 4-byte buffer with in-range algorithm
bytes that declares a 3-byte signature it does not carry is rejected through
the declared-length exit with the receiver unchanged. -/
theorem readFromString_failure_exits_atomic_witness :
    dsEmpty.readFromString [1, 1, 0, 3] = (0, dsEmpty) :=
  readFromString_failure_exits_atomic dsEmpty [1, 1, 0, 3]
    (Or.inr (Or.inr (Or.inr (by decide))))

/-- C7.  `LogSegmentCheckpoint::Deserialize(buf)` fails exactly when
`len(buf) < 8`, or the embedded `DigitallySigned` prefix-parse starting at
offset 8 fails (consumes 0), or the bytes remaining after the consumed
signature are not exactly 32; on success the first two 4-byte fields become
`sequence_number` and `segment_size` and the trailing 32 bytes become the
root. -/
theorem logSegmentCheckpoint_deserialize_conditions
    (c : LogSegmentCheckpoint) (data : Bytes) :
    ((c.deserialize data).1 = false ↔
      data.length < 8 ∨ (c.signature.readFromString (data.drop 8)).1 = 0 ∨
        data.length ≠ 8 + (c.signature.readFromString (data.drop 8)).1 + 32) ∧
    ((c.deserialize data).1 = true →
      (c.deserialize data).2.sequence_number = deserializeUint (data.take 4) ∧
      (c.deserialize data).2.segment_size =
        deserializeUint ((data.drop 4).take 4) ∧
      (c.deserialize data).2.root =
        data.drop (8 + (c.signature.readFromString (data.drop 8)).1)) := by
  unfold LogSegmentCheckpoint.deserialize
  dsimp only []
  split_ifs with h1 h2 h3 <;> simp_all

/-- Witness for C7: the 44-byte checkpoint `lscInput` decodes successfully and
its sequence number is the first 4-byte field. -/
theorem logSegmentCheckpoint_deserialize_conditions_witness :
    (lscOld.deserialize lscInput).1 = true ∧
      (lscOld.deserialize lscInput).2.sequence_number =
        deserializeUint (lscInput.take 4) := by
  have h := logSegmentCheckpoint_deserialize_conditions lscOld lscInput
  exact ⟨by decide, (h.2 (by decide)).1⟩

/-- C5.  `AuditProof` `tree_size` handling: `Serialize` emits the 4-byte
`tree_size` only for `LOG_SEGMENT_TREE`; `Deserialize` with
`SEGMENT_INFO_TREE` reads no `tree_size` from the buffer (the `leaf_index`
sits directly at offset 4) and synthesizes `tree_size` as the `size_t` sum
`sequence_number + 1`, while with `LOG_SEGMENT_TREE` the 4-byte `tree_size`
is read from the wire immediately after `sequence_number` (and `leaf_index`
at offset 8). -/
theorem auditProof_tree_size_format (p : AuditProof) (proof : Bytes) :
    (p.tree_type = TreeType.SEGMENT_INFO_TREE →
      p.serialize = serializeUint p.sequence_number 4 ++
        serializeUint p.leaf_index 4 ++ p.signature.serialize ++
        p.audit_path.foldl (fun acc h => acc ++ h) []) ∧
    (p.tree_type = TreeType.LOG_SEGMENT_TREE →
      p.serialize = serializeUint p.sequence_number 4 ++
        serializeUint p.tree_size 4 ++ serializeUint p.leaf_index 4 ++
        p.signature.serialize ++ p.audit_path.foldl (fun acc h => acc ++ h) []) ∧
    ((p.deserialize TreeType.SEGMENT_INFO_TREE proof).1 = true →
      (p.deserialize TreeType.SEGMENT_INFO_TREE proof).2.tree_size =
        ((p.deserialize TreeType.SEGMENT_INFO_TREE proof).2.sequence_number + 1)
          % 2 ^ 64 ∧
      (p.deserialize TreeType.SEGMENT_INFO_TREE proof).2.leaf_index =
        deserializeUint ((proof.drop 4).take 4)) ∧
    ((p.deserialize TreeType.LOG_SEGMENT_TREE proof).1 = true →
      (p.deserialize TreeType.LOG_SEGMENT_TREE proof).2.tree_size =
        deserializeUint ((proof.drop 4).take 4) ∧
      (p.deserialize TreeType.LOG_SEGMENT_TREE proof).2.leaf_index =
        deserializeUint ((proof.drop 8).take 4)) := by
  refine ⟨fun h => ?_, fun h => ?_, fun h => ?_, fun h => ?_⟩
  · simp [AuditProof.serialize, h]
  · simp [AuditProof.serialize, h]
  · by_cases hlen : proof.length < 4
    · unfold AuditProof.deserialize at h
      dsimp only [] at h
      rw [if_pos hlen] at h
      simp at h
    · rw [deserialize_eq_from_segment_info p proof hlen] at h ⊢
      obtain ⟨ht, hs, hz, hl⟩ := deserializeFrom_state
        { p with tree_type := TreeType.SEGMENT_INFO_TREE,
                 sequence_number := deserializeUint (proof.take 4),
                 tree_size := (deserializeUint (proof.take 4) + 1) % 2 ^ 64 }
        4 proof
      refine ⟨?_, hl h⟩
      rw [hz, hs]
  · by_cases hlen : proof.length < 4
    · unfold AuditProof.deserialize at h
      dsimp only [] at h
      rw [if_pos hlen] at h
      simp at h
    · by_cases hlen8 : proof.length < 8
      · unfold AuditProof.deserialize at h
        dsimp only [] at h
        rw [if_neg hlen, if_pos rfl, if_pos hlen8] at h
        simp at h
      · rw [deserialize_eq_from_log_segment p proof hlen hlen8] at h ⊢
        obtain ⟨ht, hs, hz, hl⟩ := deserializeFrom_state
          { p with tree_type := TreeType.LOG_SEGMENT_TREE,
                   sequence_number := deserializeUint (proof.take 4),
                   tree_size := deserializeUint ((proof.drop 4).take 4) }
          8 proof
        exact ⟨hz, hl h⟩

/-- Witness for C5: on the spec's scenario-4 buffer the decoded segment-info
proof has `tree_size = sequence_number + 1` and reads `leaf_index` at
offset 4. -/
theorem auditProof_tree_size_format_witness :
    (apEmpty.deserialize TreeType.SEGMENT_INFO_TREE apScenario4).2.tree_size =
      ((apEmpty.deserialize
          TreeType.SEGMENT_INFO_TREE apScenario4).2.sequence_number + 1)
        % 2 ^ 64 ∧
    (apEmpty.deserialize TreeType.SEGMENT_INFO_TREE apScenario4).2.leaf_index =
      deserializeUint ((apScenario4.drop 4).take 4) :=
  (auditProof_tree_size_format apEmpty apScenario4).2.2.1 (by decide)

/-- C6.  `AuditProof` alignment: once the header (4 or 8 bytes of counters
plus 4 bytes of `leaf_index`, i.e. `hdr = 12` for `LOG_SEGMENT_TREE` and
`hdr = 8` for `SEGMENT_INFO_TREE`) fits and the embedded signature
prefix-parse consumes a non-zero count, `Deserialize` succeeds exactly when
the residue after the signature is a multiple of 32 (zero bytes included),
and on success the residue is split in order into consecutive 32-byte
`audit_path` entries. -/
theorem auditProof_alignment_conditions (p : AuditProof) (type : TreeType)
    (proof : Bytes) (hdr : Nat)
    (hhdr : (type = TreeType.LOG_SEGMENT_TREE ∧ hdr = 12) ∨
      (type = TreeType.SEGMENT_INFO_TREE ∧ hdr = 8))
    (hlen : hdr ≤ proof.length)
    (hk : (p.signature.readFromString (proof.drop hdr)).1 ≠ 0) :
    ((p.deserialize type proof).1 = true ↔
      (proof.length - (hdr + (p.signature.readFromString (proof.drop hdr)).1))
        % 32 = 0) ∧
    ((p.deserialize type proof).1 = true →
      (p.deserialize type proof).2.audit_path =
        chunks32 (proof.drop
          (hdr + (p.signature.readFromString (proof.drop hdr)).1))) := by
  rcases hhdr with ⟨ht, hh⟩ | ⟨ht, hh⟩ <;> subst ht <;> subst hh
  · rw [deserialize_eq_from_log_segment p proof (by omega) (by omega)]
    unfold AuditProof.deserializeFrom
    dsimp only []
    rw [if_neg (show ¬ proof.length < 8 + 4 by omega)]
    norm_num
    split_ifs with h0 h32 <;> simp_all
  · rw [deserialize_eq_from_segment_info p proof (by omega)]
    unfold AuditProof.deserializeFrom
    dsimp only []
    rw [if_neg (show ¬ proof.length < 4 + 4 by omega)]
    norm_num
    split_ifs with h0 h32 <;> simp_all

/-- Witness for C6: on the spec's scenario-4 buffer (76 bytes, signature
consumes 4 bytes after the 8-byte header, residue 64) decoding succeeds and
the path is the 32-byte chunking of the residue. -/
theorem auditProof_alignment_conditions_witness :
    ((apEmpty.deserialize TreeType.SEGMENT_INFO_TREE apScenario4).1 = true ↔
      (apScenario4.length -
        (8 + (apEmpty.signature.readFromString (apScenario4.drop 8)).1))
        % 32 = 0) ∧
    ((apEmpty.deserialize TreeType.SEGMENT_INFO_TREE apScenario4).1 = true →
      (apEmpty.deserialize
          TreeType.SEGMENT_INFO_TREE apScenario4).2.audit_path =
        chunks32 (apScenario4.drop
          (8 + (apEmpty.signature.readFromString (apScenario4.drop 8)).1))) :=
  auditProof_alignment_conditions apEmpty TreeType.SEGMENT_INFO_TREE
    apScenario4 8 (Or.inr ⟨rfl, rfl⟩) (by decide) (by decide)

end LogRecord
